import Mathlib

/-!
Shallow embedding of `src/medical_history_1.py`: a patient medical-history
data model (record types with validated constructors and mutation methods)
behind a password-gated access layer.

Conventions of the embedding:
* Python objects become Lean structures; a mutation method on a class
  becomes a function `State → State × result`.  A method that can raise
  returns `State × Option MError`: the returned state is the state of the
  object *after* the call, whether or not it raised (Python mutations
  performed before a `raise` persist on the object).  Constructors return
  `Except MError State`, since a constructor that raises produces no object.
* Python `int` is `Int`; fields that the code forces non-negative
  (`max(0, ·)` in a constructor) are stored as `Nat`.
* `date` values are day numbers (`Int`) where only comparison/difference
  matters, and a calendar `Date` structure where parsing/formatting of
  `"%Y-%m-%d"` strings matters.  `date.today()` becomes an explicit
  `today` parameter.
* Python `list` is `List` (with `list.remove` = remove first occurrence,
  i.e. `List.erase`), `dict` is an association list with last-write-wins
  insertion semantics.
-/

namespace MedHist

/-- Errors the program can raise.  The source raises `ValueError` with a
message at every explicit `raise` site; an attribute lookup that fails
(calling a method the class does not define) raises `AttributeError`. -/
inductive MError where
  | valueError (msg : String)
  | attributeError (missingAttr : String)
deriving DecidableEq, Repr

/-! ### Calendar dates

`datetime.strptime(s, "%Y-%m-%d")`, `timedelta` addition and
`strftime("%Y-%m-%d")` are embedded with a proleptic-Gregorian day count
(era-based civil-calendar conversion).  `strptime`'s `%Y` matches exactly
four digits, `%m`/`%d` one or two, and the resulting triple must be a valid
calendar date in years 1..9999. -/

structure Date where
  year : Nat
  month : Nat
  day : Nat
deriving DecidableEq, Repr

def isLeapYear (y : Nat) : Bool :=
  y % 4 == 0 && (y % 100 != 0 || y % 400 == 0)

def daysInMonth (y m : Nat) : Nat :=
  if m == 2 then (if isLeapYear y then 29 else 28)
  else if m == 4 || m == 6 || m == 9 || m == 11 then 30
  else 31

def Date.valid (d : Date) : Bool :=
  1 ≤ d.year && d.year ≤ 9999 &&
  1 ≤ d.month && d.month ≤ 12 &&
  1 ≤ d.day && d.day ≤ daysInMonth d.year d.month

/-- Day count since 0000-03-01 of the proleptic Gregorian calendar
(era-based civil-from-date conversion; total on valid dates). -/
def Date.toDays (d : Date) : Nat :=
  let y := if d.month ≤ 2 then d.year - 1 else d.year
  let era := y / 400
  let yoe := y % 400
  let mp := if d.month > 2 then d.month - 3 else d.month + 9
  let doy := (153 * mp + 2) / 5 + d.day - 1
  let doe := yoe * 365 + yoe / 4 - yoe / 100 + doy
  era * 146097 + doe

/-- Inverse of `Date.toDays` on valid dates. -/
def Date.ofDays (g : Nat) : Date :=
  let era := g / 146097
  let doe := g % 146097
  let yoe := (doe - doe / 1460 + doe / 36524 - doe / 146096) / 365
  let y := yoe + era * 400
  let doy := doe - (365 * yoe + yoe / 4 - yoe / 100)
  let mp := (5 * doy + 2) / 153
  let d := doy - (153 * mp + 2) / 5 + 1
  let m := if mp < 10 then mp + 3 else mp - 9
  { year := if m ≤ 2 then y + 1 else y, month := m, day := d }

def natDigits : List Char → Option Nat
  | [] => none
  | cs =>
    if cs.all (fun c => '0' ≤ c && c ≤ '9') then
      some (cs.foldl (fun n c => n * 10 + (c.toNat - '0'.toNat)) 0)
    else none

def splitOnDash (cs : List Char) : List (List Char) :=
  match cs with
  | [] => [[]]
  | c :: rest =>
    let groups := splitOnDash rest
    if c == '-' then [] :: groups
    else match groups with
      | [] => [[c]]
      | g :: gs => (c :: g) :: gs

/-- `datetime.strptime(s, "%Y-%m-%d")`: four year digits, one or two month
and day digits, calendar-valid, else `ValueError`. -/
def parseDate (s : String) : Option Date :=
  match splitOnDash s.data with
  | [ys, ms, ds] =>
    if ys.length == 4 && 1 ≤ ms.length && ms.length ≤ 2
        && 1 ≤ ds.length && ds.length ≤ 2 then
      match natDigits ys, natDigits ms, natDigits ds with
      | some y, some m, some d =>
        let dt : Date := ⟨y, m, d⟩
        if dt.valid then some dt else none
      | _, _, _ => none
    else none
  | _ => none

def padNum (width n : Nat) : String :=
  let s := toString n
  String.mk (List.replicate (width - s.length) '0') ++ s

/-- `strftime("%Y-%m-%d")` / `str(date)`: zero-padded ISO rendering. -/
def formatDate (d : Date) : String :=
  padNum 4 d.year ++ "-" ++ padNum 2 d.month ++ "-" ++ padNum 2 d.day

example : parseDate "2024-01-01" = some ⟨2024, 1, 1⟩ := by decide
example : formatDate (Date.ofDays (Date.toDays ⟨2024, 1, 1⟩ + 28)) = "2024-01-29" := by decide
example : parseDate "2024-02-30" = none := by decide

/-- `str(b)` for a Python bool. -/
def pyBool : Bool → String
  | true => "True"
  | false => "False"

/-- `', '.join(l)`. -/
def joinComma (l : List String) : String :=
  String.intercalate ", " l

/-! ### FamilyHistory -/

structure FamilyHistory where
  heart : Bool
  stroke : Bool
  diabetes : Bool
  cancer : Bool
  obesity : Bool
  mental_health : Bool
  blood : Bool
  kidney : Bool
  other : List String
deriving DecidableEq, Repr

namespace FamilyHistory

/-- `__init__`: stores the flags; `other` defaults to `[]`. -/
def init (heart_disease stroke diabetes cancer obesity mental_health_issues
    high_blood_pressure kidney_disease : Bool) (other : Option (List String)) :
    FamilyHistory :=
  { heart := heart_disease, stroke := stroke, diabetes := diabetes,
    cancer := cancer, obesity := obesity, mental_health := mental_health_issues,
    blood := high_blood_pressure, kidney := kidney_disease,
    other := other.getD [] }

/-- `add_disease_into_other_list`: appends only a non-empty, not-yet-present
disease; otherwise silently does nothing. -/
def add_disease_into_other_list (disease : String) (fh : FamilyHistory) :
    FamilyHistory :=
  if disease ≠ "" ∧ disease ∉ fh.other then
    { fh with other := fh.other ++ [disease] }
  else fh

/-- `remove_disease_from_other_list`: removes the first occurrence and
returns `true`; returns `false` (no change, no error) when absent. -/
def remove_disease_from_other_list (disease : String) (fh : FamilyHistory) :
    FamilyHistory × Bool :=
  if disease ∈ fh.other then ({ fh with other := fh.other.erase disease }, true)
  else (fh, false)

/-- `__str__`. -/
def toStr (fh : FamilyHistory) : String :=
  "Heart Disease: " ++ pyBool fh.heart ++ ", Stroke: " ++ pyBool fh.stroke ++
  ", Diabetes: " ++ pyBool fh.diabetes ++ ", Cancer: " ++ pyBool fh.cancer ++
  ", Obesity: " ++ pyBool fh.obesity ++
  ", Mental Health Issues: " ++ pyBool fh.mental_health ++
  ", High Blood Pressure: " ++ pyBool fh.blood ++
  ", Kidney Disease: " ++ pyBool fh.kidney ++
  ", Other: " ++ (if joinComma fh.other = "" then "None" else joinComma fh.other)

end FamilyHistory

/-! ### Allergies -/

structure Allergies where
  allergies_presence : Bool
  allergies : List String
deriving DecidableEq, Repr

namespace Allergies

/-- `__init__`: a falsy `allergies` argument (None or empty list) becomes `[]`. -/
def init (allergies_presence : Bool) (allergies : Option (List String)) :
    Allergies :=
  { allergies_presence,
    allergies := match allergies with
      | some l => if l = [] then [] else l
      | none => [] }

/-- `add_allergy`: appends only when not already present (silent on duplicate). -/
def add_allergy (allergy : String) (a : Allergies) : Allergies :=
  if allergy ∈ a.allergies then a
  else { a with allergies := a.allergies ++ [allergy] }

/-- `remove_allergy`: removes the first occurrence and returns `true`;
returns `false` (no change, no error) when absent. -/
def remove_allergy (allergy_to_remove : String) (a : Allergies) :
    Allergies × Bool :=
  if allergy_to_remove ∈ a.allergies then
    ({ a with allergies := a.allergies.erase allergy_to_remove }, true)
  else (a, false)

/-- `__str__`. -/
def toStr (a : Allergies) : String :=
  if a.allergies = [] then "No known allergies."
  else "Known allergies: " ++ joinComma a.allergies

end Allergies

/-! ### CurrentMedications / Surgeries / Disabilities / Hospitalizations

Four structurally identical classes over a list of strings: `add` raises on
an empty or already-present entry, `remove` returns `false` when absent. -/

structure CurrentMedications where
  medications : List String
deriving DecidableEq, Repr

namespace CurrentMedications

def init (medications : Option (List String)) : CurrentMedications :=
  { medications := medications.getD [] }

/-- `add_medication`: raises on empty or duplicate, else appends. -/
def add_medication (medication : String) (s : CurrentMedications) :
    CurrentMedications × Option MError :=
  if medication = "" then (s, some (.valueError "Medication cannot be empty."))
  else if medication ∈ s.medications then
    (s, some (.valueError "Medication already exists in the list."))
  else ({ s with medications := s.medications ++ [medication] }, none)

/-- `remove_medication`: removes first occurrence, `false` when absent. -/
def remove_medication (medication : String) (s : CurrentMedications) :
    CurrentMedications × Bool :=
  if medication ∈ s.medications then
    ({ s with medications := s.medications.erase medication }, true)
  else (s, false)

def toStr (s : CurrentMedications) : String :=
  "Current Medications: " ++
    (if s.medications = [] then "None" else joinComma s.medications)

end CurrentMedications

structure Surgeries where
  surgeries : List String
deriving DecidableEq, Repr

namespace Surgeries

def init (surgeries : Option (List String)) : Surgeries :=
  { surgeries := surgeries.getD [] }

/-- `add_surgery`: raises on empty or duplicate, else appends. -/
def add_surgery (surgery : String) (s : Surgeries) : Surgeries × Option MError :=
  if surgery = "" then (s, some (.valueError "Surgery cannot be empty."))
  else if surgery ∈ s.surgeries then
    (s, some (.valueError "Surgery already exists in the list."))
  else ({ s with surgeries := s.surgeries ++ [surgery] }, none)

/-- `remove_surgery`: removes first occurrence, `false` when absent. -/
def remove_surgery (surgery : String) (s : Surgeries) : Surgeries × Bool :=
  if surgery ∈ s.surgeries then
    ({ s with surgeries := s.surgeries.erase surgery }, true)
  else (s, false)

def toStr (s : Surgeries) : String :=
  "Surgeries: " ++ (if s.surgeries = [] then "None" else joinComma s.surgeries)

end Surgeries

structure Disabilities where
  disabilities : List String
deriving DecidableEq, Repr

namespace Disabilities

def init (disabilities : Option (List String)) : Disabilities :=
  { disabilities := disabilities.getD [] }

/-- `add_disability`: raises on empty or duplicate, else appends. -/
def add_disability (disability : String) (s : Disabilities) :
    Disabilities × Option MError :=
  if disability = "" then (s, some (.valueError "Disability cannot be empty."))
  else if disability ∈ s.disabilities then
    (s, some (.valueError "Disability already exists in the list."))
  else ({ s with disabilities := s.disabilities ++ [disability] }, none)

/-- `remove_disability`: removes first occurrence, `false` when absent. -/
def remove_disability (disability : String) (s : Disabilities) :
    Disabilities × Bool :=
  if disability ∈ s.disabilities then
    ({ s with disabilities := s.disabilities.erase disability }, true)
  else (s, false)

def toStr (s : Disabilities) : String :=
  "Disabilities: " ++
    (if s.disabilities = [] then "None" else joinComma s.disabilities)

end Disabilities

structure Hospitalizations where
  hospitalizations : List String
deriving DecidableEq, Repr

namespace Hospitalizations

def init (hospitalizations : Option (List String)) : Hospitalizations :=
  { hospitalizations := hospitalizations.getD [] }

/-- `add_hospitalization`: raises on empty or duplicate, else appends. -/
def add_hospitalization (hospitalization : String) (s : Hospitalizations) :
    Hospitalizations × Option MError :=
  if hospitalization = "" then
    (s, some (.valueError "Hospitalization cannot be empty."))
  else if hospitalization ∈ s.hospitalizations then
    (s, some (.valueError "Hospitalization already exists in the list."))
  else ({ s with hospitalizations := s.hospitalizations ++ [hospitalization] },
    none)

/-- `remove_hospitalization`: removes first occurrence, `false` when absent. -/
def remove_hospitalization (hospitalization : String) (s : Hospitalizations) :
    Hospitalizations × Bool :=
  if hospitalization ∈ s.hospitalizations then
    ({ s with hospitalizations := s.hospitalizations.erase hospitalization },
      true)
  else (s, false)

def toStr (s : Hospitalizations) : String :=
  "Hospitalizations: " ++
    (if s.hospitalizations = [] then "None" else joinComma s.hospitalizations)

end Hospitalizations

/-! ### LifestyleAndHabits -/

/-- Python `str.capitalize()`: first character upper-cased, rest lower-cased. -/
def pyCapitalize (s : String) : String :=
  match s.data with
  | [] => ""
  | c :: cs => String.mk (c.toUpper :: cs.map Char.toLower)

structure LifestyleAndHabits where
  smoking : Bool
  smoking_frequency : Int
  smoking_quit_date : Option Int
  alcohol_consumption : Bool
  alcohol_frequency : Int
  alcohol_quit_date : Option Int
  caffeine_consumption : Bool
  caffeine_frequency : Int
  caffeine_quit_date : Option Int
  exercise_habits : Bool
  exercise_frequency : Int
  dietary_habits : List String
  drug_use : Bool
  drug_frequency : Int
  drug_quit_date : Option Int
deriving DecidableEq, Repr

namespace LifestyleAndHabits

/-- `_validate_frequency`: raises on a negative value. -/
def _validate_frequency (frequency : Int) : Except MError Int :=
  if frequency < 0 then
    .error (.valueError "Frequency must be a non-negative integer.")
  else .ok frequency

/-- `__init__`: validates every frequency; a quit date supplied for a habit
that is currently active is discarded (`x_quit_date if not x else None`). -/
def init (smoking : Bool) (smoking_frequency : Int)
    (smoking_quit_date : Option Int)
    (alcohol_consumption : Bool) (alcohol_frequency : Int)
    (alcohol_quit_date : Option Int)
    (caffeine_consumption : Bool) (caffeine_frequency : Int)
    (caffeine_quit_date : Option Int)
    (exercise_habits : Bool) (exercise_frequency : Int)
    (dietary_habits : Option (List String))
    (drug_use : Bool) (drug_frequency : Int) (drug_quit_date : Option Int) :
    Except MError LifestyleAndHabits :=
  match _validate_frequency smoking_frequency with
  | .error e => .error e
  | .ok sf =>
  match _validate_frequency alcohol_frequency with
  | .error e => .error e
  | .ok af =>
  match _validate_frequency caffeine_frequency with
  | .error e => .error e
  | .ok cf =>
  match _validate_frequency exercise_frequency with
  | .error e => .error e
  | .ok ef =>
  match _validate_frequency drug_frequency with
  | .error e => .error e
  | .ok df =>
  .ok { smoking, smoking_frequency := sf,
           smoking_quit_date := if smoking then none else smoking_quit_date,
           alcohol_consumption, alcohol_frequency := af,
           alcohol_quit_date :=
             if alcohol_consumption then none else alcohol_quit_date,
           caffeine_consumption, caffeine_frequency := cf,
           caffeine_quit_date :=
             if caffeine_consumption then none else caffeine_quit_date,
           exercise_habits, exercise_frequency := ef,
           dietary_habits := dietary_habits.getD [],
           drug_use, drug_frequency := df,
           drug_quit_date := if drug_use then none else drug_quit_date }

/-- `quit_habit`: the future-date check runs first, before the habit name is
examined; then an active matching habit is flipped to inactive with its quit
date recorded, anything else raises. -/
def quit_habit (today : Int) (habit : String) (quit_date : Int)
    (l : LifestyleAndHabits) : LifestyleAndHabits × Option MError :=
  if quit_date > today then
    (l, some (.valueError "Quit date cannot be in the future."))
  else if habit = "smoking" ∧ l.smoking then
    ({ l with smoking := false, smoking_quit_date := some quit_date }, none)
  else if habit = "alcohol" ∧ l.alcohol_consumption then
    ({ l with alcohol_consumption := false,
              alcohol_quit_date := some quit_date }, none)
  else if habit = "caffeine" ∧ l.caffeine_consumption then
    ({ l with caffeine_consumption := false,
              caffeine_quit_date := some quit_date }, none)
  else if habit = "drug" ∧ l.drug_use then
    ({ l with drug_use := false, drug_quit_date := some quit_date }, none)
  else
    (l, some (.valueError
      (pyCapitalize habit ++ " is not active or invalid habit name.")))

/-- `days_since_quit`: `-1` when the habit is unrecognized or its quit date
is unset, else days elapsed. -/
def days_since_quit (today : Int) (habit : String)
    (l : LifestyleAndHabits) : Int :=
  let qd :=
    if habit = "smoking" then l.smoking_quit_date
    else if habit = "alcohol" then l.alcohol_quit_date
    else if habit = "caffeine" then l.caffeine_quit_date
    else if habit = "drug" then l.drug_quit_date
    else none
  match qd with
  | some q => today - q
  | none => -1

/-- `add_diet_into_dietary_habits`: appends when not present. -/
def add_diet_into_dietary_habits (diet : String) (l : LifestyleAndHabits) :
    LifestyleAndHabits :=
  if diet ∈ l.dietary_habits then l
  else { l with dietary_habits := l.dietary_habits ++ [diet] }

/-- `update_habit`: unconditional setter for flag and frequency (floored at
0); raises on an unrecognized habit name.  Quit dates are not touched. -/
def update_habit (habit : String) (value : Bool) (frequency : Int)
    (l : LifestyleAndHabits) : LifestyleAndHabits × Option MError :=
  if habit = "smoking" then
    ({ l with smoking := value, smoking_frequency := max 0 frequency }, none)
  else if habit = "alcohol" then
    ({ l with alcohol_consumption := value,
              alcohol_frequency := max 0 frequency }, none)
  else if habit = "caffeine" then
    ({ l with caffeine_consumption := value,
              caffeine_frequency := max 0 frequency }, none)
  else if habit = "exercise" then
    ({ l with exercise_habits := value,
              exercise_frequency := max 0 frequency }, none)
  else if habit = "drug" then
    ({ l with drug_use := value, drug_frequency := max 0 frequency }, none)
  else
    (l, some (.valueError
      "Invalid habit name. Accepted values are 'smoking', 'alcohol', 'caffeine', 'exercise', 'drug'."))

/-- `remove_diet_from_dietary_habits`: removes first occurrence when present. -/
def remove_diet_from_dietary_habits (diet : String) (l : LifestyleAndHabits) :
    LifestyleAndHabits :=
  if diet ∈ l.dietary_habits then
    { l with dietary_habits := l.dietary_habits.erase diet }
  else l

/-- The nested `quit_info` helper of `__str__`. -/
def quit_info (today : Int) (habit : String) (active : Bool) (frequency : Int)
    (quit_date : Option Int) : String :=
  if active then
    pyCapitalize habit ++ ": Yes (Frequency: " ++ toString frequency ++
      " per week)"
  else
    match quit_date with
    | some qd =>
      pyCapitalize habit ++ ": Quit " ++ toString (today - qd) ++ " days ago"
    | none => pyCapitalize habit ++ ": No (Never engaged or unknown quit date)"

/-- `__str__` (depends on `date.today()` through `quit_info`). -/
def toStr (today : Int) (l : LifestyleAndHabits) : String :=
  let smoking_info :=
    quit_info today "Smoking" l.smoking l.smoking_frequency l.smoking_quit_date
  let alcohol_info := quit_info today "Alcohol consumption"
    l.alcohol_consumption l.alcohol_frequency l.alcohol_quit_date
  let caffeine_info := quit_info today "Caffeine consumption"
    l.caffeine_consumption l.caffeine_frequency l.caffeine_quit_date
  let drug_info :=
    quit_info today "Drug use" l.drug_use l.drug_frequency l.drug_quit_date
  "Smoking: " ++ smoking_info ++ "\n" ++
  "Alcohol Consumption: " ++ alcohol_info ++ "\n" ++
  "Caffeine Consumption: " ++ caffeine_info ++ "\n" ++
  "Exercise: " ++ (if l.exercise_habits then "Yes" else "No") ++
    " (Frequency: " ++ toString l.exercise_frequency ++ " per week)\n" ++
  "Dietary Habits: " ++
    (if l.dietary_habits ≠ [] then joinComma l.dietary_habits else "None") ++
    "\n" ++
  "Drug Use: " ++ drug_info

end LifestyleAndHabits

/-! ### VaccinationRecord -/

def assocInsert {α : Type} (k : String) (v : α) :
    List (String × α) → List (String × α)
  | [] => [(k, v)]
  | (k', v') :: rest =>
    if k' = k then (k, v) :: rest else (k', v') :: assocInsert k v rest

def assocHas {α : Type} (k : String) (l : List (String × α)) : Bool :=
  l.any (fun p => p.1 == k)

def assocGet {α : Type} (k : String) : List (String × α) → Option α
  | [] => none
  | (k', v') :: rest => if k' = k then some v' else assocGet k rest

def assocRemove {α : Type} (k : String) (l : List (String × α)) :
    List (String × α) :=
  l.filter (fun p => p.1 ≠ k)

structure VaccinationRecord where
  vaccinations : List (String × String)
deriving DecidableEq, Repr

namespace VaccinationRecord

def init (vaccinations : Option (List (String × String))) : VaccinationRecord :=
  { vaccinations := vaccinations.getD [] }

/-- `add_vaccination`: dict assignment — overwrites an existing entry for the
same vaccine, appends otherwise; never raises. -/
def add_vaccination (vaccine_name date_administered : String)
    (v : VaccinationRecord) : VaccinationRecord :=
  { v with vaccinations :=
      assocInsert vaccine_name date_administered v.vaccinations }

/-- `remove_vaccination`: deletes the entry, raising when absent. -/
def remove_vaccination (vaccine_name : String) (v : VaccinationRecord) :
    VaccinationRecord × Option MError :=
  if assocHas vaccine_name v.vaccinations then
    ({ v with vaccinations := assocRemove vaccine_name v.vaccinations }, none)
  else
    (v, some (.valueError ("No record found for vaccine: " ++ vaccine_name)))

/-- `__str__`. -/
def toStr (v : VaccinationRecord) : String :=
  if v.vaccinations = [] then "Vaccination Record: None"
  else
    "Vaccination Record:\n" ++
      String.intercalate "\n"
        (v.vaccinations.map (fun p => p.1 ++ ": " ++ p.2))

end VaccinationRecord

/-! ### WomansHealthRecord -/

structure WomansHealthRecord where
  is_pregnant : Bool
  past_pregnancies : Nat
  miscarriages : Nat
  abortions : Nat
  other_issues : List String
deriving DecidableEq, Repr

namespace WomansHealthRecord

/-- `_validate_counts`: raises when `miscarriages + abortions` exceeds
`past_pregnancies`. -/
def _validate_counts (w : WomansHealthRecord) : Option MError :=
  if w.past_pregnancies < w.miscarriages + w.abortions then
    some (.valueError
      "The sum of miscarriages and abortions cannot exceed the total number of past pregnancies.")
  else none

/-- `__init__`: counts floored at 0 (`max(0, ·)`), then `_validate_counts`. -/
def init (is_pregnant : Bool) (past_pregnancies miscarriages abortions : Int)
    (other_issues : Option (List String)) : Except MError WomansHealthRecord :=
  let w : WomansHealthRecord :=
    { is_pregnant, past_pregnancies := (max 0 past_pregnancies).toNat,
      miscarriages := (max 0 miscarriages).toNat,
      abortions := (max 0 abortions).toNat,
      other_issues := other_issues.getD [] }
  match _validate_counts w with
  | some e => .error e
  | none => .ok w

/-- `complete_pregnancy`: raises (unchanged state) when not pregnant;
otherwise clears `is_pregnant`, bumps `past_pregnancies` (successful) or
`miscarriages` (unsuccessful), and only then runs `_validate_counts` — the
returned state carries the increments even when the check raises. -/
def complete_pregnancy (successful : Bool) (w : WomansHealthRecord) :
    WomansHealthRecord × Option MError :=
  if ¬ w.is_pregnant then
    (w, some (.valueError
      "Cannot complete a pregnancy because the woman is not currently pregnant."))
  else
    let w1 := { w with is_pregnant := false }
    let w2 :=
      if successful then { w1 with past_pregnancies := w1.past_pregnancies + 1 }
      else { w1 with miscarriages := w1.miscarriages + 1 }
    (w2, _validate_counts w2)

/-- `add_other_issue`: appends when not present (silent on duplicate). -/
def add_other_issue (issue : String) (w : WomansHealthRecord) :
    WomansHealthRecord :=
  if issue ∈ w.other_issues then w
  else { w with other_issues := w.other_issues ++ [issue] }

/-- `remove_other_issue`: removes first occurrence, raises when absent. -/
def remove_other_issue (issue : String) (w : WomansHealthRecord) :
    WomansHealthRecord × Option MError :=
  if issue ∈ w.other_issues then
    ({ w with other_issues := w.other_issues.erase issue }, none)
  else
    (w, some (.valueError
      ("Issue '" ++ issue ++ "' not found in the list of other issues.")))

/-- `__str__`. -/
def toStr (w : WomansHealthRecord) : String :=
  "Currently Pregnant: " ++ (if w.is_pregnant then "Yes" else "No") ++ "\n" ++
  "Past Pregnancies: " ++ toString w.past_pregnancies ++ "\n" ++
  "Miscarriages: " ++ toString w.miscarriages ++ "\n" ++
  "Abortions: " ++ toString w.abortions ++ "\n" ++
  "Other Health Issues: " ++
    (if w.other_issues ≠ [] then joinComma w.other_issues else "None")

end WomansHealthRecord

/-! ### MenstrualCycleRecord -/

/-- Python truthiness of an optional string (`None` and `""` are falsy). -/
def truthyStr : Option String → Bool
  | none => false
  | some s => s ≠ ""

structure MenstrualCycleRecord where
  last_period_date : Option String
  cycle_length : Nat
  flow_pattern : List (String × Int)
  symptoms : List String
  health_issues : List String
  period_history : List String
deriving DecidableEq, Repr

namespace MenstrualCycleRecord

/-- `__init__`: clamps `cycle_length` to `[21, 35]`, defaults
`flow_pattern` to `{"Normal": 5}`, and appends a truthy
`last_period_date` to `period_history`. -/
def init (last_period_date : Option String) (cycle_length : Int)
    (flow_pattern : Option (List (String × Int)))
    (symptoms health_issues period_history : Option (List String)) :
    MenstrualCycleRecord :=
  let hist := period_history.getD []
  { last_period_date,
    cycle_length := (max 21 (min 35 cycle_length)).toNat,
    flow_pattern := flow_pattern.getD [("Normal", 5)],
    symptoms := symptoms.getD [],
    health_issues := health_issues.getD [],
    period_history :=
      if truthyStr last_period_date then hist ++ [last_period_date.getD ""]
      else hist }

/-- `add_symptom`: appends when not present (silent on duplicate). -/
def add_symptom (symptom : String) (mc : MenstrualCycleRecord) :
    MenstrualCycleRecord :=
  if symptom ∈ mc.symptoms then mc
  else { mc with symptoms := mc.symptoms ++ [symptom] }

/-- `remove_symptom`: removes first occurrence, raises when absent. -/
def remove_symptom (symptom : String) (mc : MenstrualCycleRecord) :
    MenstrualCycleRecord × Option MError :=
  if symptom ∈ mc.symptoms then
    ({ mc with symptoms := mc.symptoms.erase symptom }, none)
  else
    (mc, some (.valueError
      ("Symptom '" ++ symptom ++ "' not found in the list.")))

/-- `add_health_issue`: appends when not present (silent on duplicate). -/
def add_health_issue (issue : String) (mc : MenstrualCycleRecord) :
    MenstrualCycleRecord :=
  if issue ∈ mc.health_issues then mc
  else { mc with health_issues := mc.health_issues ++ [issue] }

/-- `remove_health_issue`: removes first occurrence, raises when absent. -/
def remove_health_issue (issue : String) (mc : MenstrualCycleRecord) :
    MenstrualCycleRecord × Option MError :=
  if issue ∈ mc.health_issues then
    ({ mc with health_issues := mc.health_issues.erase issue }, none)
  else
    (mc, some (.valueError
      ("Health issue '" ++ issue ++ "' not found in the list.")))

/-- `strptime` failure (format mismatch or calendar-invalid date); the
source lets the `ValueError` from `datetime.strptime` propagate, its exact
message depending on the input — one representative message is used here. -/
def strptimeError (s : String) : MError :=
  .valueError ("time data '" ++ s ++ "' does not match format '%Y-%m-%d'")

/-- `predict_next_period`: raises when `last_period_date` is falsy, else
parses it, adds `cycle_length` days and renders `"%Y-%m-%d"`. -/
def predict_next_period (mc : MenstrualCycleRecord) : Except MError String :=
  match mc.last_period_date with
  | none =>
    .error (.valueError
      "Last period date is not set. Cannot predict the next period.")
  | some s =>
    if s = "" then
      .error (.valueError
        "Last period date is not set. Cannot predict the next period.")
    else
      match parseDate s with
      | none => .error (strptimeError s)
      | some dt => .ok (formatDate (Date.ofDays (dt.toDays + mc.cycle_length)))

/-- `add_period_date`: `strptime` validates the string (raising on
failure), then it becomes `last_period_date` and is appended to history. -/
def add_period_date (d : String) (mc : MenstrualCycleRecord) :
    Except MError MenstrualCycleRecord :=
  match parseDate d with
  | none => .error (strptimeError d)
  | some _ =>
    .ok { mc with last_period_date := some d,
                  period_history := mc.period_history ++ [d] }

/-- `hist[i] - hist[i-1]` for `i` in `1..n-1`. -/
def consecDiffs : List Int → List Int
  | a :: b :: rest => (b - a) :: consecDiffs (b :: rest)
  | _ => []

/-- `calculate_average_cycle_length`: raises with fewer than two history
entries, else the floor-division mean (`//`) of consecutive day gaps. -/
def calculate_average_cycle_length (mc : MenstrualCycleRecord) :
    Except MError Int :=
  if mc.period_history.length < 2 then
    .error (.valueError
      "Not enough period history to calculate average cycle length.")
  else
    match mc.period_history.mapM parseDate with
    | none => .error (strptimeError "")
    | some ds =>
      let differences := consecDiffs (ds.map (fun d => (d.toDays : Int)))
      .ok (Int.fdiv differences.sum differences.length)

/-- `__str__`. -/
def toStr (mc : MenstrualCycleRecord) : String :=
  let flow_summary := String.intercalate ", "
    (mc.flow_pattern.map (fun p => p.1 ++ ": " ++ toString p.2 ++ " days"))
  "Last Period Date: " ++
    (match mc.last_period_date with
     | some s => if s ≠ "" then s else "Not recorded"
     | none => "Not recorded") ++ "\n" ++
  "Cycle Length: " ++ toString mc.cycle_length ++ " days\n" ++
  "Flow Pattern: " ++ flow_summary ++ "\n" ++
  "Symptoms: " ++ (if mc.symptoms ≠ [] then joinComma mc.symptoms else "None") ++
    "\n" ++
  "Health Issues: " ++
    (if mc.health_issues ≠ [] then joinComma mc.health_issues else "None") ++
    "\n" ++
  "Period History: " ++
    (if mc.period_history ≠ [] then joinComma mc.period_history else "None")

end MenstrualCycleRecord

/-! ### PersonalData -/

structure PersonalData where
  patients_name : String
  patients_surname : String
  patients_fathers_name : String
  patients_mothers_name : String
  patients_date_of_birth : Date
  patients_social_security_id : String
  patients_tel_number : String
  patients_email : String
  patients_address : List (String × String)
  patients_occupation : String
  patients_emergency_contact : List (String × String)
deriving DecidableEq, Repr

namespace PersonalData

def required_keys : List String :=
  ["street", "city", "state", "postal_code", "country"]

/-- `validate_address`: every required key present with a non-empty string
value, else `ValueError`.  (The `isinstance(…, dict)` / `isinstance(…, str)`
guards are discharged by typing.) -/
def validate_address (address : List (String × String)) :
    Except MError (List (String × String)) :=
  if ¬ (required_keys.all (fun k => assocHas k address)) then
    .error (.valueError "Address must include the required keys.")
  else if ¬ (required_keys.all (fun k => (assocGet k address).getD "" ≠ "")) then
    .error (.valueError "All address fields must be non-empty strings.")
  else .ok address

/-- The attributes the class body defines: `__init__`, `validate_address`
and `__str__` — and nothing else (the comment `# Rest of the class remains
the same...` at line 74 stands in place of code that is absent). -/
def classAttrs : List String := ["__init__", "validate_address", "__str__"]

/-- Python attribute lookup on a `PersonalData` instance: methods come from
the class body; a name not defined there raises `AttributeError`. -/
def getattrMissing (attr : String) : Option MError :=
  if attr ∈ classAttrs then none else some (.attributeError attr)

/-- `__init__`: lines 40–43 assign the four name fields without validation;
line 44 then evaluates `self.validate_birthdate(birthdate)`, whose attribute
lookup fails (the class defines no `validate_birthdate`, nor
`validate_social_security_id`, `validate_tel_number`, `validate_email` or
`validate_emergency_contact`), raising `AttributeError` before the
constructor can complete for any arguments. -/
def init (name surname fathers_name mothers_name : String) (birthdate : Date)
    (social_security_id tel_number email : String)
    (address : List (String × String)) (occupation : String)
    (emergency_contact : List (String × String)) :
    Except MError PersonalData :=
  match getattrMissing "validate_birthdate" with
  | some e => .error e
  | none =>
    -- Unreachable (`classAttrs` lists no validator): the remaining
    -- assignments of lines 44-50 never execute.
    .ok { patients_name := name, patients_surname := surname,
          patients_fathers_name := fathers_name,
          patients_mothers_name := mothers_name,
          patients_date_of_birth := birthdate,
          patients_social_security_id := social_security_id,
          patients_tel_number := tel_number, patients_email := email,
          patients_address := address, patients_occupation := occupation,
          patients_emergency_contact := emergency_contact }

/-- `__str__` (key accesses on the address/emergency-contact dicts). -/
def toStr (pd : PersonalData) : String :=
  let addrStr := fun k => (assocGet k pd.patients_address).getD ""
  let ecStr := fun k => (assocGet k pd.patients_emergency_contact).getD ""
  let address_str :=
    addrStr "street" ++ ", " ++ addrStr "city" ++ ", " ++ addrStr "state" ++
      " " ++ addrStr "postal_code" ++ ", " ++ addrStr "country"
  let emergency_contact_str :=
    "Emergency Contact: " ++ ecStr "name" ++ " (" ++ ecStr "tel_number" ++ ")"
  "Name: " ++ pd.patients_name ++ " " ++ pd.patients_surname ++
  ", Father's Name: " ++ pd.patients_fathers_name ++
  ", Mother's Name: " ++ pd.patients_mothers_name ++
  ", Birthdate: " ++ formatDate pd.patients_date_of_birth ++
  ", Social Security ID: " ++ pd.patients_social_security_id ++
  ", Telephone: " ++ pd.patients_tel_number ++
  ", Email: " ++ pd.patients_email ++
  ", Address: " ++ address_str ++
  ", Occupation: " ++ pd.patients_occupation ++
  ", " ++ emergency_contact_str

end PersonalData

/-! ### MedicalHistory, Patient, AuthenticationSystem -/

structure MedicalHistory where
  personal_data : PersonalData
  family_history : FamilyHistory
  lifestyle_and_habits : LifestyleAndHabits
  allergies : Allergies
  current_medications : CurrentMedications
  surgeries : Surgeries
  disabilities : Disabilities
  hospitalizations : Hospitalizations
  vaccination_record : VaccinationRecord
  womans_health_record : Option WomansHealthRecord
  menstrual_cycle_record : Option MenstrualCycleRecord
deriving DecidableEq, Repr

namespace MedicalHistory

/-- `__str__`: concatenates every member's rendering; each absent optional
record shows as "Not Applicable".  (`today` feeds the lifestyle section's
days-since-quit rendering.) -/
def toStr (today : Int) (mh : MedicalHistory) : String :=
  let womans_health_str :=
    match mh.womans_health_record with
    | some w => "Woman's Health Record:\n" ++ w.toStr ++ "\n\n"
    | none => "Woman's Health Record: Not Applicable\n\n"
  let menstrual_cycle_str :=
    match mh.menstrual_cycle_record with
    | some m => "Menstrual Cycle Record:\n" ++ m.toStr ++ "\n\n"
    | none => "Menstrual Cycle Record: Not Applicable\n\n"
  "Personal Data:\n" ++ mh.personal_data.toStr ++ "\n\n" ++
  "Family History:\n" ++ mh.family_history.toStr ++ "\n\n" ++
  "Lifestyle and Habits:\n" ++ mh.lifestyle_and_habits.toStr today ++ "\n\n" ++
  "Allergies:\n" ++ mh.allergies.toStr ++ "\n\n" ++
  "Current Medications:\n" ++ mh.current_medications.toStr ++ "\n\n" ++
  "Surgeries:\n" ++ mh.surgeries.toStr ++ "\n\n" ++
  "Disabilities:\n" ++ mh.disabilities.toStr ++ "\n\n" ++
  "Hospitalizations:\n" ++ mh.hospitalizations.toStr ++ "\n\n" ++
  "Vaccination Record:\n" ++ mh.vaccination_record.toStr ++ "\n\n" ++
  womans_health_str ++ menstrual_cycle_str

end MedicalHistory

structure Patient where
  patient_id : String
  name : String
  password : String
  _medical_history : MedicalHistory
deriving DecidableEq, Repr

namespace Patient

/-- `check_password`: plaintext equality against the stored credential. -/
def check_password (password : String) (p : Patient) : Bool :=
  p.password == password

/-- `get_medical_history`: renders the owned history on a password match,
raises `ValueError("Incorrect password.")` otherwise. -/
def get_medical_history (today : Int) (password : String) (p : Patient) :
    Except MError String :=
  if p.check_password password then .ok (p._medical_history.toStr today)
  else .error (.valueError "Incorrect password.")

end Patient

structure AuthenticationSystem where
  patients : List (String × Patient)
deriving DecidableEq, Repr

namespace AuthenticationSystem

/-- `__init__`: the registry starts empty. -/
def init : AuthenticationSystem := { patients := [] }

/-- `register_patient`: dict assignment keyed by `patient.patient_id`
(overwrites an existing registration for the same id). -/
def register_patient (patient : Patient) (a : AuthenticationSystem) :
    AuthenticationSystem :=
  { a with patients := assocInsert patient.patient_id patient a.patients }

/-- `login`: unknown id raises `ValueError("Patient not found.")`, else
delegates to `Patient.get_medical_history`. -/
def login (today : Int) (patient_id password : String)
    (a : AuthenticationSystem) : Except MError String :=
  match assocGet patient_id a.patients with
  | some patient => patient.get_medical_history today password
  | none => .error (.valueError "Patient not found.")

end AuthenticationSystem

/-! ### Derived predicates and sample data -/

/-- The count invariant of `WomansHealthRecord` as the spec states it. -/
def WomansHealthRecord.counts_inv (w : WomansHealthRecord) : Prop :=
  w.miscarriages + w.abortions ≤ w.past_pregnancies

instance (w : WomansHealthRecord) : Decidable w.counts_inv := by
  unfold WomansHealthRecord.counts_inv
  infer_instance

/-- The habit/quit-date invariant of `LifestyleAndHabits`: a habit being
active implies its quit date is unset. -/
def LifestyleAndHabits.habit_quit_inv (l : LifestyleAndHabits) : Bool :=
  (!l.smoking || l.smoking_quit_date == none) &&
  (!l.alcohol_consumption || l.alcohol_quit_date == none) &&
  (!l.caffeine_consumption || l.caffeine_quit_date == none) &&
  (!l.drug_use || l.drug_quit_date == none)

/-- A concrete personal-data value (built directly; `PersonalData.init`
itself can never return one, see C9). -/
def samplePersonalData : PersonalData :=
  { patients_name := "Alice", patients_surname := "Adams",
    patients_fathers_name := "Robert", patients_mothers_name := "Carol",
    patients_date_of_birth := ⟨1990, 5, 17⟩,
    patients_social_security_id := "123-45-6789",
    patients_tel_number := "555-0100",
    patients_email := "alice@example.com",
    patients_address :=
      [("street", "1 Main St"), ("city", "Springfield"), ("state", "IL"),
       ("postal_code", "62701"), ("country", "USA")],
    patients_occupation := "Engineer",
    patients_emergency_contact :=
      [("name", "Robert Adams"), ("tel_number", "555-0101")] }

def sampleLifestyle : LifestyleAndHabits :=
  ⟨false, 0, none, false, 0, none, false, 0, none, false, 0, [], false, 0, none⟩

def sampleMedicalHistory : MedicalHistory :=
  { personal_data := samplePersonalData,
    family_history :=
      FamilyHistory.init false false false false false false false false none,
    lifestyle_and_habits := sampleLifestyle,
    allergies := ⟨false, []⟩,
    current_medications := ⟨[]⟩,
    surgeries := ⟨[]⟩,
    disabilities := ⟨[]⟩,
    hospitalizations := ⟨[]⟩,
    vaccination_record := ⟨[]⟩,
    womans_health_record := none,
    menstrual_cycle_record := none }

def samplePatient : Patient := ⟨"p1", "A", "secret", sampleMedicalHistory⟩

/-! ## Helper lemmas -/

/-- Appending a fresh element and then erasing it restores the list. -/
theorem erase_append_singleton {x : String} {l : List String} (h : x ∉ l) :
    (l ++ [x]).erase x = l := by
  induction l with
  | nil => simp
  | cons a as ih =>
    have hax : ¬ (a == x) = true := by
      simp only [beq_iff_eq]
      intro hax
      exact h (hax ▸ List.mem_cons_self a as)
    have hxs : x ∉ as := fun hm => h (List.mem_cons_of_mem a hm)
    simp [List.erase_cons, hax, ih hxs]

/-! ## Claims -/

/-- C1: the invariant `miscarriages + abortions ≤ past_pregnancies` is
supposed to hold after every public mutation, including one that raises.
The code violates it: from the constructible state (pregnant, all counts 0),
`complete_pregnancy(successful=False)` increments `miscarriages` *before*
`_validate_counts` raises, and the raised error leaves the object with
`miscarriages = 1 > past_pregnancies = 0`. -/
theorem C1_failed_complete_pregnancy_violates_counts_inv :
    WomansHealthRecord.init true 0 0 0 none = .ok ⟨true, 0, 0, 0, []⟩ ∧
    WomansHealthRecord.complete_pregnancy false ⟨true, 0, 0, 0, []⟩ =
      (⟨false, 0, 1, 0, []⟩, some (.valueError
        "The sum of miscarriages and abortions cannot exceed the total number of past pregnancies.")) ∧
    ¬ WomansHealthRecord.counts_inv ⟨false, 0, 1, 0, []⟩ := by
  refine ⟨rfl, rfl, ?_⟩
  decide

/-- C2: mutations are supposed to be atomic (an error leaves the state
exactly as before the call).  `complete_pregnancy` is not: when its
defensive count check fails, the returned state differs from the input
state (`is_pregnant` cleared, `miscarriages` incremented). -/
theorem C2_complete_pregnancy_not_atomic :
    WomansHealthRecord.init true 1 1 0 none = .ok ⟨true, 1, 1, 0, []⟩ ∧
    WomansHealthRecord.complete_pregnancy false ⟨true, 1, 1, 0, []⟩ =
      (⟨false, 1, 2, 0, []⟩, some (.valueError
        "The sum of miscarriages and abortions cannot exceed the total number of past pregnancies.")) ∧
    (⟨false, 1, 2, 0, []⟩ : WomansHealthRecord) ≠ ⟨true, 1, 1, 0, []⟩ := by
  refine ⟨rfl, rfl, ?_⟩
  decide

/-- C9: for every combination of arguments, the `PersonalData` constructor
raises before completing — its first validator call,
`self.validate_birthdate`, looks up an attribute the class does not define,
so no `PersonalData` instance can come out of the public constructor. -/
theorem C9_personal_data_constructor_always_raises :
    ∀ (name surname fathers_name mothers_name : String) (birthdate : Date)
      (social_security_id tel_number email : String)
      (address : List (String × String)) (occupation : String)
      (emergency_contact : List (String × String)),
      PersonalData.init name surname fathers_name mothers_name birthdate
        social_security_id tel_number email address occupation
        emergency_contact =
        .error (.attributeError "validate_birthdate") := by
  intro name surname fathers_name mothers_name birthdate ssid tel email
    address occupation emergency_contact
  rfl

/-- C10: `quit_habit` checks the quit date before the habit name: a future
quit date raises the future-date error with the state unchanged, for any
habit string; and the inactive/unrecognized-habit error can only be raised
when the quit date is not in the future (and it, too, leaves the state
unchanged). -/
theorem C10_quit_habit_checks_future_date_first :
    ∀ (l : LifestyleAndHabits) (habit : String) (quit_date today : Int),
      (quit_date > today →
        l.quit_habit today habit quit_date =
          (l, some (.valueError "Quit date cannot be in the future."))) ∧
      (∀ l' : LifestyleAndHabits,
        l.quit_habit today habit quit_date =
          (l', some (.valueError
            (pyCapitalize habit ++ " is not active or invalid habit name."))) →
        quit_date ≤ today ∧ l' = l) := by
  intro l habit qd today
  constructor
  · intro h
    rw [LifestyleAndHabits.quit_habit, if_pos h]
  · intro l' h
    by_cases hq : qd > today
    · exfalso
      rw [LifestyleAndHabits.quit_habit, if_pos hq] at h
      have hmsg : MError.valueError "Quit date cannot be in the future." =
          MError.valueError
            (pyCapitalize habit ++ " is not active or invalid habit name.") := by
        have := congrArg (fun p => p.2) h
        simpa using this
      have hlen := congrArg String.length (MError.valueError.inj hmsg)
      rw [String.length_append] at hlen
      have h34 : ("Quit date cannot be in the future.").length = 34 := by decide
      have h37 : (" is not active or invalid habit name.").length = 37 := by
        decide
      omega
    · refine ⟨le_of_not_lt hq, ?_⟩
      rw [LifestyleAndHabits.quit_habit, if_neg hq] at h
      split_ifs at h <;> simp_all

/-- Witness for C10 at concrete inputs: with `today = 0`, a quit date of 1
is rejected as in the future (state untouched) for an unrecognized habit
name, and the inactive-habit error raised for inactive smoking at quit date
`-1` implies `-1 ≤ 0`. -/
theorem C10_witness :
    sampleLifestyle.quit_habit 0 "unknown" 1 =
      (sampleLifestyle,
        some (.valueError "Quit date cannot be in the future.")) ∧
    ((-1 : Int) ≤ 0 ∧ sampleLifestyle = sampleLifestyle) := by
  constructor
  · exact (C10_quit_habit_checks_future_date_first sampleLifestyle "unknown"
      1 0).1 (by decide)
  · exact (C10_quit_habit_checks_future_date_first sampleLifestyle "smoking"
      (-1) 0).2 sampleLifestyle rfl

/-- C3 counterexample: the claim says activating a habit via
`update_habit(…, value=True)` clears that habit's quit date.  It does not:
starting from a constructed state with smoking active, quitting smoking
(recording quit date 5) and then re-activating it with `update_habit`
yields a state that is both active and carries the stale quit date —
refuting the claimed reachable-state invariant. -/
theorem C3_update_habit_keeps_stale_quit_date :
    LifestyleAndHabits.init true 0 none false 0 none false 0 none false 0 none
        false 0 none =
      .ok ⟨true, 0, none, false, 0, none, false, 0, none, false, 0, [],
        false, 0, none⟩ ∧
    LifestyleAndHabits.quit_habit 10 "smoking" 5
        ⟨true, 0, none, false, 0, none, false, 0, none, false, 0, [],
          false, 0, none⟩ =
      (⟨false, 0, some 5, false, 0, none, false, 0, none, false, 0, [],
        false, 0, none⟩, none) ∧
    LifestyleAndHabits.update_habit "smoking" true 0
        ⟨false, 0, some 5, false, 0, none, false, 0, none, false, 0, [],
          false, 0, none⟩ =
      (⟨true, 0, some 5, false, 0, none, false, 0, none, false, 0, [],
        false, 0, none⟩, none) ∧
    ((⟨true, 0, some 5, false, 0, none, false, 0, none, false, 0, [],
        false, 0, none⟩ : LifestyleAndHabits).smoking = true ∧
      (⟨true, 0, some 5, false, 0, none, false, 0, none, false, 0, [],
        false, 0, none⟩ : LifestyleAndHabits).smoking_quit_date ≠ none) := by
  refine ⟨rfl, by decide, by decide, rfl, by decide⟩

set_option maxHeartbeats 1000000 in
/-- C3 amended: active-implies-no-quit-date holds for every state produced
by the constructor and is preserved by `quit_habit` and by the dietary
operations; but `update_habit` never touches any quit date, so activating a
previously-quit habit through it leaves the stale quit date in place (the
invariant is preserved only on the constructor/`quit_habit` fragment). -/
theorem C3_amended_habit_quit_invariant :
    (∀ (smoking : Bool) (sf : Int) (sq : Option Int) (alc : Bool) (af : Int)
        (aq : Option Int) (caf : Bool) (cf : Int) (cq : Option Int)
        (ex : Bool) (ef : Int) (diet : Option (List String)) (dr : Bool)
        (df : Int) (dq : Option Int) (l : LifestyleAndHabits),
      LifestyleAndHabits.init smoking sf sq alc af aq caf cf cq ex ef diet
          dr df dq = .ok l →
        l.habit_quit_inv = true) ∧
    (∀ (today : Int) (habit : String) (qd : Int)
        (l l' : LifestyleAndHabits) (e : Option MError),
      l.quit_habit today habit qd = (l', e) →
        l.habit_quit_inv = true → l'.habit_quit_inv = true) ∧
    (∀ (diet : String) (l : LifestyleAndHabits),
      (l.add_diet_into_dietary_habits diet).habit_quit_inv =
          l.habit_quit_inv ∧
        (l.remove_diet_from_dietary_habits diet).habit_quit_inv =
          l.habit_quit_inv) ∧
    (∀ (habit : String) (v : Bool) (f : Int) (l : LifestyleAndHabits),
      (l.update_habit habit v f).1.smoking_quit_date = l.smoking_quit_date ∧
      (l.update_habit habit v f).1.alcohol_quit_date = l.alcohol_quit_date ∧
      (l.update_habit habit v f).1.caffeine_quit_date =
        l.caffeine_quit_date ∧
      (l.update_habit habit v f).1.drug_quit_date = l.drug_quit_date) := by
  refine ⟨?_, ?_, ?_, ?_⟩
  · intro smoking sf sq alc af aq caf cf cq ex ef diet dr df dq l h
    rw [LifestyleAndHabits.init] at h
    split at h; · exact Except.noConfusion h
    split at h; · exact Except.noConfusion h
    split at h; · exact Except.noConfusion h
    split at h; · exact Except.noConfusion h
    split at h; · exact Except.noConfusion h
    injection h with h'
    subst h'
    cases smoking <;> cases alc <;> cases caf <;> cases dr <;>
      simp [LifestyleAndHabits.habit_quit_inv]
  · intro today habit qd l l' e h hinv
    rw [LifestyleAndHabits.quit_habit] at h
    split_ifs at h <;>
      (rw [Prod.mk.injEq] at h; obtain ⟨rfl, rfl⟩ := h) <;>
      simp only [LifestyleAndHabits.habit_quit_inv, Bool.and_eq_true,
        Bool.or_eq_true, Bool.not_eq_true', beq_iff_eq] at hinv ⊢ <;>
      tauto
  · intro diet l
    constructor
    · rw [LifestyleAndHabits.add_diet_into_dietary_habits]
      split <;> rfl
    · rw [LifestyleAndHabits.remove_diet_from_dietary_habits]
      split <;> rfl
  · intro habit v f l
    rw [LifestyleAndHabits.update_habit]
    split_ifs <;> simp

/-- Witness for C3's amended theorem: the constructor part at a concrete
inactive-smoker state with a recorded quit date, and the `quit_habit` part
on a concrete active smoker quitting at date 2. -/
theorem C3_amended_witness :
    (⟨false, 0, some 3, false, 0, none, false, 0, none, false, 0, [],
        false, 0, none⟩ : LifestyleAndHabits).habit_quit_inv = true ∧
    (⟨false, 1, some 2, false, 0, none, false, 0, none, false, 0, [],
        false, 0, none⟩ : LifestyleAndHabits).habit_quit_inv = true := by
  constructor
  · exact C3_amended_habit_quit_invariant.1 false 0 (some 3) false 0 none
      false 0 none false 0 none false 0 none _ rfl
  · exact C3_amended_habit_quit_invariant.2.1 5 "smoking" 2
      ⟨true, 1, none, false, 0, none, false, 0, none, false, 0, [],
        false, 0, none⟩ _ none rfl (by decide)

/-- C4 counterexample: the claim says `remove` on the symptom/issue lists of
`FamilyHistory` and `Allergies` fails when the entry is absent.  It does
not: both return normally with `false` and an unchanged state (their remove
methods cannot raise at all). -/
theorem C4_family_history_and_allergies_remove_return_false :
    Allergies.remove_allergy "Peanuts" ⟨true, []⟩ = (⟨true, []⟩, false) ∧
    FamilyHistory.remove_disease_from_other_list "Asthma"
        ⟨false, false, false, false, false, false, false, false, []⟩ =
      (⟨false, false, false, false, false, false, false, false, []⟩, false) :=
  ⟨rfl, rfl⟩

/-- C4 amended: CurrentMedications/Surgeries/Disabilities/Hospitalizations
fail on an empty or duplicate add and return `false` on a missing remove;
FamilyHistory's `other` list and Allergies silently ignore a duplicate add
and also return `false` (rather than failing) on a missing remove; the
issue/symptom lists of WomansHealthRecord and MenstrualCycleRecord silently
ignore a duplicate add and fail on a missing remove. -/
theorem C4_amended_add_remove_asymmetry :
    (∀ (m : String) (s : CurrentMedications), m = "" ∨ m ∈ s.medications →
      ∃ e, s.add_medication m = (s, some e)) ∧
    (∀ (m : String) (s : CurrentMedications), m ∉ s.medications →
      s.remove_medication m = (s, false)) ∧
    (∀ (x : String) (s : Surgeries), x = "" ∨ x ∈ s.surgeries →
      ∃ e, s.add_surgery x = (s, some e)) ∧
    (∀ (x : String) (s : Surgeries), x ∉ s.surgeries →
      s.remove_surgery x = (s, false)) ∧
    (∀ (x : String) (s : Disabilities), x = "" ∨ x ∈ s.disabilities →
      ∃ e, s.add_disability x = (s, some e)) ∧
    (∀ (x : String) (s : Disabilities), x ∉ s.disabilities →
      s.remove_disability x = (s, false)) ∧
    (∀ (x : String) (s : Hospitalizations), x = "" ∨ x ∈ s.hospitalizations →
      ∃ e, s.add_hospitalization x = (s, some e)) ∧
    (∀ (x : String) (s : Hospitalizations), x ∉ s.hospitalizations →
      s.remove_hospitalization x = (s, false)) ∧
    (∀ (d : String) (fh : FamilyHistory), d ∈ fh.other →
      fh.add_disease_into_other_list d = fh) ∧
    (∀ (d : String) (fh : FamilyHistory), d ∉ fh.other →
      fh.remove_disease_from_other_list d = (fh, false)) ∧
    (∀ (x : String) (a : Allergies), x ∈ a.allergies →
      a.add_allergy x = a) ∧
    (∀ (x : String) (a : Allergies), x ∉ a.allergies →
      a.remove_allergy x = (a, false)) ∧
    (∀ (i : String) (w : WomansHealthRecord), i ∈ w.other_issues →
      w.add_other_issue i = w) ∧
    (∀ (i : String) (w : WomansHealthRecord), i ∉ w.other_issues →
      ∃ e, w.remove_other_issue i = (w, some e)) ∧
    (∀ (x : String) (mc : MenstrualCycleRecord), x ∈ mc.symptoms →
      mc.add_symptom x = mc) ∧
    (∀ (x : String) (mc : MenstrualCycleRecord), x ∉ mc.symptoms →
      ∃ e, mc.remove_symptom x = (mc, some e)) ∧
    (∀ (x : String) (mc : MenstrualCycleRecord), x ∈ mc.health_issues →
      mc.add_health_issue x = mc) ∧
    (∀ (x : String) (mc : MenstrualCycleRecord), x ∉ mc.health_issues →
      ∃ e, mc.remove_health_issue x = (mc, some e)) := by
  refine ⟨?_, ?_, ?_, ?_, ?_, ?_, ?_, ?_, ?_, ?_, ?_, ?_, ?_, ?_, ?_, ?_,
    ?_, ?_⟩
  · intro m s h
    rcases h with rfl | hm
    · exact ⟨_, by rw [CurrentMedications.add_medication, if_pos rfl]⟩
    · by_cases he : m = ""
      · subst he
        exact ⟨_, by rw [CurrentMedications.add_medication, if_pos rfl]⟩
      · exact ⟨_, by
          rw [CurrentMedications.add_medication, if_neg he, if_pos hm]⟩
  · intro m s h
    rw [CurrentMedications.remove_medication, if_neg h]
  · intro x s h
    rcases h with rfl | hm
    · exact ⟨_, by rw [Surgeries.add_surgery, if_pos rfl]⟩
    · by_cases he : x = ""
      · subst he
        exact ⟨_, by rw [Surgeries.add_surgery, if_pos rfl]⟩
      · exact ⟨_, by rw [Surgeries.add_surgery, if_neg he, if_pos hm]⟩
  · intro x s h
    rw [Surgeries.remove_surgery, if_neg h]
  · intro x s h
    rcases h with rfl | hm
    · exact ⟨_, by rw [Disabilities.add_disability, if_pos rfl]⟩
    · by_cases he : x = ""
      · subst he
        exact ⟨_, by rw [Disabilities.add_disability, if_pos rfl]⟩
      · exact ⟨_, by rw [Disabilities.add_disability, if_neg he, if_pos hm]⟩
  · intro x s h
    rw [Disabilities.remove_disability, if_neg h]
  · intro x s h
    rcases h with rfl | hm
    · exact ⟨_, by rw [Hospitalizations.add_hospitalization, if_pos rfl]⟩
    · by_cases he : x = ""
      · subst he
        exact ⟨_, by rw [Hospitalizations.add_hospitalization, if_pos rfl]⟩
      · exact ⟨_, by
          rw [Hospitalizations.add_hospitalization, if_neg he, if_pos hm]⟩
  · intro x s h
    rw [Hospitalizations.remove_hospitalization, if_neg h]
  · intro d fh h
    rw [FamilyHistory.add_disease_into_other_list, if_neg (fun hc => hc.2 h)]
  · intro d fh h
    rw [FamilyHistory.remove_disease_from_other_list, if_neg h]
  · intro x a h
    rw [Allergies.add_allergy, if_pos h]
  · intro x a h
    rw [Allergies.remove_allergy, if_neg h]
  · intro i w h
    rw [WomansHealthRecord.add_other_issue, if_pos h]
  · intro i w h
    exact ⟨_, by rw [WomansHealthRecord.remove_other_issue, if_neg h]⟩
  · intro x mc h
    rw [MenstrualCycleRecord.add_symptom, if_pos h]
  · intro x mc h
    exact ⟨_, by rw [MenstrualCycleRecord.remove_symptom, if_neg h]⟩
  · intro x mc h
    rw [MenstrualCycleRecord.add_health_issue, if_pos h]
  · intro x mc h
    exact ⟨_, by rw [MenstrualCycleRecord.remove_health_issue, if_neg h]⟩

/-- Witness for C4's amended theorem at concrete inputs: duplicate
`add_medication` fails, missing `remove_medication` returns `false`,
duplicate `add_allergy` is a silent no-op, and a missing
`remove_other_issue` fails. -/
theorem C4_amended_witness :
    (∃ e, CurrentMedications.add_medication "Ibuprofen" ⟨["Ibuprofen"]⟩ =
      (⟨["Ibuprofen"]⟩, some e)) ∧
    CurrentMedications.remove_medication "Aspirin" ⟨["Ibuprofen"]⟩ =
      (⟨["Ibuprofen"]⟩, false) ∧
    Allergies.add_allergy "Dust" ⟨true, ["Dust"]⟩ = ⟨true, ["Dust"]⟩ ∧
    (∃ e, WomansHealthRecord.remove_other_issue "Anemia" ⟨false, 0, 0, 0, []⟩ =
      (⟨false, 0, 0, 0, []⟩, some e)) := by
  obtain ⟨h1, h2, _, _, _, _, _, _, _, _, h11, _, _, h14, _, _, _, _⟩ :=
    C4_amended_add_remove_asymmetry
  exact ⟨h1 "Ibuprofen" ⟨["Ibuprofen"]⟩ (Or.inr (by simp)),
    h2 "Aspirin" ⟨["Ibuprofen"]⟩ (by simp),
    h11 "Dust" ⟨true, ["Dust"]⟩ (by simp),
    h14 "Anemia" ⟨false, 0, 0, 0, []⟩ (by simp)⟩

/-- C6 counterexample: `add(x); remove(x)` does not always return the
collection to its prior state.  When `x` is already present, the add is a
silent no-op and the remove then deletes the pre-existing occurrence:
`["Peanuts"]` becomes `[]`. -/
theorem C6_add_remove_not_roundtrip_on_duplicate :
    (Allergies.remove_allergy "Peanuts"
        (Allergies.add_allergy "Peanuts" ⟨true, ["Peanuts"]⟩)).1 ≠
      ⟨true, ["Peanuts"]⟩ := by
  decide

/-- C6 amended: for the silent-duplicate set-like fields (Allergies,
FamilyHistory.other, dietary habits, WomansHealthRecord.other_issues,
MenstrualCycleRecord symptoms and health issues), `add(x); remove(x)`
returns the collection to its prior state *provided `x` was not already
present*, and `add(x); add(x)` always equals `add(x)` (idempotence). -/
theorem C6_amended_roundtrip_and_idempotence :
    (∀ (x : String) (a : Allergies), x ∉ a.allergies →
      (a.add_allergy x).remove_allergy x = (a, true)) ∧
    (∀ (x : String) (a : Allergies),
      (a.add_allergy x).add_allergy x = a.add_allergy x) ∧
    (∀ (d : String) (fh : FamilyHistory), d ∉ fh.other →
      ((fh.add_disease_into_other_list d).remove_disease_from_other_list
        d).1 = fh) ∧
    (∀ (d : String) (fh : FamilyHistory),
      (fh.add_disease_into_other_list d).add_disease_into_other_list d =
        fh.add_disease_into_other_list d) ∧
    (∀ (x : String) (l : LifestyleAndHabits), x ∉ l.dietary_habits →
      (l.add_diet_into_dietary_habits x).remove_diet_from_dietary_habits x =
        l) ∧
    (∀ (x : String) (l : LifestyleAndHabits),
      (l.add_diet_into_dietary_habits x).add_diet_into_dietary_habits x =
        l.add_diet_into_dietary_habits x) ∧
    (∀ (i : String) (w : WomansHealthRecord), i ∉ w.other_issues →
      (w.add_other_issue i).remove_other_issue i = (w, none)) ∧
    (∀ (i : String) (w : WomansHealthRecord),
      (w.add_other_issue i).add_other_issue i = w.add_other_issue i) ∧
    (∀ (x : String) (mc : MenstrualCycleRecord), x ∉ mc.symptoms →
      (mc.add_symptom x).remove_symptom x = (mc, none)) ∧
    (∀ (x : String) (mc : MenstrualCycleRecord),
      (mc.add_symptom x).add_symptom x = mc.add_symptom x) ∧
    (∀ (x : String) (mc : MenstrualCycleRecord), x ∉ mc.health_issues →
      (mc.add_health_issue x).remove_health_issue x = (mc, none)) ∧
    (∀ (x : String) (mc : MenstrualCycleRecord),
      (mc.add_health_issue x).add_health_issue x = mc.add_health_issue x) := by
  refine ⟨?_, ?_, ?_, ?_, ?_, ?_, ?_, ?_, ?_, ?_, ?_, ?_⟩
  · intro x a h
    simp [Allergies.add_allergy, Allergies.remove_allergy, h,
      erase_append_singleton h]
  · intro x a
    by_cases hx : x ∈ a.allergies <;> simp [Allergies.add_allergy, hx]
  · intro d fh h
    by_cases he : d = ""
    · subst he
      simp [FamilyHistory.add_disease_into_other_list,
        FamilyHistory.remove_disease_from_other_list, h]
    · simp [FamilyHistory.add_disease_into_other_list,
        FamilyHistory.remove_disease_from_other_list, h, he,
        erase_append_singleton h]
  · intro d fh
    by_cases he : d = ""
    · simp [FamilyHistory.add_disease_into_other_list, he]
    · by_cases hd : d ∈ fh.other <;>
        simp [FamilyHistory.add_disease_into_other_list, he, hd]
  · intro x l h
    simp [LifestyleAndHabits.add_diet_into_dietary_habits,
      LifestyleAndHabits.remove_diet_from_dietary_habits, h,
      erase_append_singleton h]
  · intro x l
    by_cases hx : x ∈ l.dietary_habits <;>
      simp [LifestyleAndHabits.add_diet_into_dietary_habits, hx]
  · intro i w h
    simp [WomansHealthRecord.add_other_issue,
      WomansHealthRecord.remove_other_issue, h, erase_append_singleton h]
  · intro i w
    by_cases hi : i ∈ w.other_issues <;>
      simp [WomansHealthRecord.add_other_issue, hi]
  · intro x mc h
    simp [MenstrualCycleRecord.add_symptom, MenstrualCycleRecord.remove_symptom,
      h, erase_append_singleton h]
  · intro x mc
    by_cases hx : x ∈ mc.symptoms <;> simp [MenstrualCycleRecord.add_symptom, hx]
  · intro x mc h
    simp [MenstrualCycleRecord.add_health_issue,
      MenstrualCycleRecord.remove_health_issue, h, erase_append_singleton h]
  · intro x mc
    by_cases hx : x ∈ mc.health_issues <;>
      simp [MenstrualCycleRecord.add_health_issue, hx]

/-- Witness for C6's amended theorem: a fresh allergy round-trips, and a
fresh other-issue on a `WomansHealthRecord` round-trips without error. -/
theorem C6_amended_witness :
    Allergies.remove_allergy "Dust"
      (Allergies.add_allergy "Dust" ⟨true, []⟩) = (⟨true, []⟩, true) ∧
    WomansHealthRecord.remove_other_issue "Anemia"
      (WomansHealthRecord.add_other_issue "Anemia" ⟨false, 1, 0, 1, []⟩) =
      (⟨false, 1, 0, 1, []⟩, none) := by
  obtain ⟨h1, _, _, _, _, _, h7, _⟩ := C6_amended_roundtrip_and_idempotence
  exact ⟨h1 "Dust" ⟨true, []⟩ (by simp),
    h7 "Anemia" ⟨false, 1, 0, 1, []⟩ (by simp)⟩

/-- There is one consecutive gap fewer than there are history entries. -/
theorem consecDiffs_length :
    ∀ (l : List Int),
      (MenstrualCycleRecord.consecDiffs l).length = l.length - 1
  | [] => rfl
  | [_] => rfl
  | a :: b :: rest => by
    rw [MenstrualCycleRecord.consecDiffs]
    simp only [List.length_cons]
    rw [consecDiffs_length (b :: rest)]
    simp

/-- C7: `predict_next_period` fails when `last_period_date` is unset (falsy),
and otherwise returns the stored date plus `cycle_length` days rendered as
`"%Y-%m-%d"`. -/
theorem C7_predict_next_period_spec :
    ∀ (mc : MenstrualCycleRecord),
      (truthyStr mc.last_period_date = false →
        mc.predict_next_period = .error (.valueError
          "Last period date is not set. Cannot predict the next period.")) ∧
      (∀ (s : String) (dt : Date), mc.last_period_date = some s →
        parseDate s = some dt →
        mc.predict_next_period =
          .ok (formatDate (Date.ofDays (dt.toDays + mc.cycle_length)))) := by
  intro mc
  constructor
  · intro h
    rcases hm : mc.last_period_date with _ | s
    · simp [MenstrualCycleRecord.predict_next_period, hm]
    · rw [hm] at h
      simp [truthyStr] at h
      simp [MenstrualCycleRecord.predict_next_period, hm, h]
  · intro s dt hm hp
    have hs : s ≠ "" := by
      intro he
      have h0 : parseDate "" = none := by decide
      rw [he, h0] at hp
      exact Option.noConfusion hp
    simp [MenstrualCycleRecord.predict_next_period, hm, hs, hp]

/-- Witness for C7 at the spec's concrete input: last period 2024-01-01 and
cycle length 28 predict 2024-01-29. -/
theorem C7_witness :
    MenstrualCycleRecord.predict_next_period
      (MenstrualCycleRecord.init (some "2024-01-01") 28 none none none none) =
      .ok "2024-01-29" := by
  have h := (C7_predict_next_period_spec
    (MenstrualCycleRecord.init (some "2024-01-01") 28 none none none
      none)).2 "2024-01-01" ⟨2024, 1, 1⟩ rfl (by decide)
  rw [h]
  congr 1

/-- C8: `calculate_average_cycle_length` fails with fewer than two history
entries, and otherwise returns the floor-division (`//`) mean of the
consecutive day gaps of `period_history` — there being one gap fewer than
entries. -/
theorem C8_average_cycle_length_spec :
    (∀ (l : List Int),
      (MenstrualCycleRecord.consecDiffs l).length = l.length - 1) ∧
    (∀ (mc : MenstrualCycleRecord),
      (mc.period_history.length < 2 →
        mc.calculate_average_cycle_length = .error (.valueError
          "Not enough period history to calculate average cycle length.")) ∧
      (∀ (ds : List Date), mc.period_history.mapM parseDate = some ds →
        2 ≤ mc.period_history.length →
        mc.calculate_average_cycle_length =
          .ok (Int.fdiv
            (MenstrualCycleRecord.consecDiffs
              (ds.map (fun d => (d.toDays : Int)))).sum
            (MenstrualCycleRecord.consecDiffs
              (ds.map (fun d => (d.toDays : Int)))).length))) := by
  refine ⟨consecDiffs_length, ?_⟩
  intro mc
  constructor
  · intro h
    rw [MenstrualCycleRecord.calculate_average_cycle_length, if_pos h]
  · intro ds hds hlen
    rw [MenstrualCycleRecord.calculate_average_cycle_length,
      if_neg (by omega : ¬ mc.period_history.length < 2)]
    rw [hds]

/-- Witness for C8 at the spec's concrete input: history
`["2024-01-01", "2024-01-29", "2024-02-26"]` has gaps 28 and 28, mean 28. -/
theorem C8_witness :
    MenstrualCycleRecord.calculate_average_cycle_length
      (MenstrualCycleRecord.init none 28 none none none
        (some ["2024-01-01", "2024-01-29", "2024-02-26"])) = .ok 28 := by
  have h := ((C8_average_cycle_length_spec.2
    (MenstrualCycleRecord.init none 28 none none none
      (some ["2024-01-01", "2024-01-29", "2024-02-26"]))).2
    [⟨2024, 1, 1⟩, ⟨2024, 1, 29⟩, ⟨2024, 2, 26⟩] (by decide) (by decide))
  rw [h]
  congr 1

/-- C5: `login` raises not-found for an unregistered id; for a registered
patient it delegates to `get_medical_history`, which raises the incorrect-
password error when the candidate differs from the stored credential and
otherwise returns the full rendered history — a string that carries the
personal-data summary right after its "Personal Data:" header. -/
theorem C5_login_spec :
    ∀ (today : Int) (a : AuthenticationSystem) (pid pw : String),
      (assocGet pid a.patients = none →
        a.login today pid pw = .error (.valueError "Patient not found.")) ∧
      (∀ p : Patient, assocGet pid a.patients = some p →
        (pw ≠ p.password →
          a.login today pid pw =
            .error (.valueError "Incorrect password.")) ∧
        (pw = p.password →
          a.login today pid pw = .ok (p._medical_history.toStr today) ∧
          ∃ post, p._medical_history.toStr today =
            "Personal Data:\n" ++ p._medical_history.personal_data.toStr ++
              post)) := by
  intro today a pid pw
  constructor
  · intro h
    rw [AuthenticationSystem.login, h]
  · intro p hp
    constructor
    · intro hne
      have hc : ¬ (p.check_password pw = true) := by
        simp only [Patient.check_password, beq_iff_eq]
        exact fun he => hne he.symm
      simp only [AuthenticationSystem.login, hp,
        Patient.get_medical_history, if_neg hc]
    · intro he
      have hc : p.check_password pw = true := by
        simp [Patient.check_password, he]
      refine ⟨?_, ?_⟩
      · simp only [AuthenticationSystem.login, hp,
          Patient.get_medical_history, if_pos hc]
      · rw [MedicalHistory.toStr]
        simp only [String.append_assoc]
        exact ⟨_, rfl⟩

/-- Witness for C5 at the spec's concrete scenario: after registering
`Patient("p1", "A", "secret", history)`, logging in as "p1" with "wrong"
fails with the incorrect-password error and with "secret" returns the
rendered history, which contains the personal-data summary. -/
theorem C5_witness :
    (AuthenticationSystem.init.register_patient samplePatient).login 0 "p1"
        "wrong" = .error (.valueError "Incorrect password.") ∧
    (AuthenticationSystem.init.register_patient samplePatient).login 0 "p1"
        "secret" = .ok (sampleMedicalHistory.toStr 0) ∧
    ∃ post, sampleMedicalHistory.toStr 0 =
      "Personal Data:\n" ++ samplePersonalData.toStr ++ post := by
  have hget : assocGet "p1"
      (AuthenticationSystem.init.register_patient samplePatient).patients =
      some samplePatient := rfl
  have h := (C5_login_spec 0
    (AuthenticationSystem.init.register_patient samplePatient) "p1"
    "wrong").2 samplePatient hget
  have h2 := (C5_login_spec 0
    (AuthenticationSystem.init.register_patient samplePatient) "p1"
    "secret").2 samplePatient hget
  exact ⟨h.1 (by decide), (h2.2 rfl).1, (h2.2 rfl).2⟩

end MedHist
